import Mathlib

/-!
Verification of the HTTP transport layer of `cage1016/gokit-gae`
(`internal/app/add/transports/http.go` and `internal/pkg/responses`).

The Go code is shallowly embedded: heterogeneous `error` values become the
closed variant `GoError` (the transport code dispatches on exactly these
dynamic types), JSON documents become the inductive `Json`, and each transport
function becomes a pure Lean function over these types.  Repository code that
is referenced but not part of the given sources (the `internal/pkg/errors`
package, the `endpoints` response records, `HTTPStatusFromCode`) is modelled
from the specification, as marked on each definition.
-/

/-- Sub-error item of the `internal/pkg/errors` package (`errors.Errors`).
Modelled from the spec: an ordered sequence element of shape
`{field?, message}`. -/
structure SubError where
  field : String
  message : String
deriving DecidableEq

/-- Modelled from the spec: `errors.FromError` of the `internal/pkg/errors`
package reduces an error string to "a single-element sequence whose message is
the original string" (spec section 4.4 step 4). -/
def FromError (s : String) : List SubError :=
  [{ field := "", message := s }]

/-- `responses.ErrorResItem`: `{code: int, message: string, errors: []errors.Errors}`. -/
structure ErrorResItem where
  code : Nat
  message : String
  errors : List SubError
deriving DecidableEq

/-- `responses.ErrorRes`: the wire error envelope, a single item under the
`error` key. -/
structure ErrorRes where
  error : ErrorResItem
deriving DecidableEq

/-- `responses.ErrorWrapper`: `{error: string}`. -/
structure ErrorWrapper where
  error : String
deriving DecidableEq

/-- The gRPC status codes (`google.golang.org/grpc/codes`). -/
inductive RpcCode
  | ok
  | canceled
  | unknown
  | invalidArgument
  | deadlineExceeded
  | notFound
  | alreadyExists
  | permissionDenied
  | resourceExhausted
  | failedPrecondition
  | aborted
  | outOfRange
  | unimplemented
  | internal
  | unavailable
  | dataLoss
  | unauthenticated
deriving DecidableEq

/-- Modelled from the spec: `HTTPStatusFromCode` maps an RPC status code to an
HTTP status "via a fixed, total table (e.g., NotFound→404, InvalidArgument→400,
PermissionDenied→403, Unauthenticated→401, Internal/Unknown→500, etc.)";
the remaining rows follow the standard grpc-gateway table the spec's examples
come from, and every code has exactly one status. -/
def HTTPStatusFromCode : RpcCode → Nat
  | .ok => 200
  | .canceled => 408
  | .unknown => 500
  | .invalidArgument => 400
  | .deadlineExceeded => 504
  | .notFound => 404
  | .alreadyExists => 409
  | .permissionDenied => 403
  | .resourceExhausted => 429
  | .failedPrecondition => 400
  | .aborted => 409
  | .outOfRange => 400
  | .unimplemented => 501
  | .internal => 500
  | .unavailable => 503
  | .dataLoss => 500
  | .unauthenticated => 401

/-- The dynamic error values `httpEncodeError` and the client decoders
dispatch on.  `rpcStatus` is an error recognized by `status.FromError`;
`domainErr` is a typed `errors.Error` carrying, as the spec's data model says,
"a human message plus zero-or-more structured sub-errors" (the
`internal/pkg/errors` accessors `Msg()` / `Errors()` are modelled from the
spec as returning exactly that carried data); `unexpectedEOF` / `eof` are the
sentinels `io.ErrUnexpectedEOF` / `io.EOF`; `tokenContextMissing` is
`kitjwt.ErrTokenContextMissing`; `jsonSynErr` / `jsonTypeErr` are
`*json.SyntaxError` / `*json.UnmarshalTypeError`; `generic` is any other
error, reduced to its string message. -/
inductive GoError
  | rpcStatus (code : RpcCode) (msg : String)
  | domainErr (msg : String) (errs : List SubError)
  | unexpectedEOF
  | eof
  | tokenContextMissing
  | jsonSynErr (msg : String)
  | jsonTypeErr (msg : String)
  | generic (msg : String)
deriving DecidableEq

/-- The Go `err.Error()` string of each error variant. -/
def errString : GoError → String
  | .rpcStatus _ m => m
  | .domainErr m _ => m
  | .unexpectedEOF => "unexpected EOF"
  | .eof => "EOF"
  | .tokenContextMissing => "token up for parsing was not passed through the context"
  | .jsonSynErr m => m
  | .jsonTypeErr m => m
  | .generic m => m

/-- Discriminator for the typed domain error variant (`errors.Error`). -/
def isDomainError : GoError → Bool
  | .domainErr _ _ => true
  | _ => false

/-- Discriminator for errors recognized by `status.FromError`. -/
def isRpcStatus : GoError → Bool
  | .rpcStatus _ _ => true
  | _ => false

/-- Embedding of `httpEncodeError` (http.go lines 212-253): the ordered
decision procedure.  `status.FromError` succeeding is the `rpcStatus` case;
otherwise the type switch tries `errors.Error` (keeping `code = 500` and
assigning `message`/`errs` only when `Msg()` is non-empty), and the default
arm classifies the well-known transport errors for the status code and parses
`err.Error()` through `FromError`.  The final envelope is
`ErrorRes{ErrorResItem{code, message, errs}}`. -/
def httpEncodeError (err : GoError) : ErrorRes :=
  match err with
  | .rpcStatus c m =>
      let errs := FromError m
      { error := { code := HTTPStatusFromCode c
                   message := (errs.headD { field := "", message := "" }).message
                   errors := errs } }
  | .domainErr m es =>
      if m = "" then
        { error := { code := 500, message := "", errors := [] } }
      else
        { error := { code := 500, message := m, errors := es } }
  | e =>
      let code : Nat :=
        match e with
        | .unexpectedEOF => 400
        | .eof => 400
        | .tokenContextMissing => 401
        | .jsonSynErr _ => 400
        | .jsonTypeErr _ => 400
        | _ => 500
      let errs := FromError (errString e)
      { error := { code := code
                   message := (errs.headD { field := "", message := "" }).message
                   errors := errs } }

/-- The claim of C1 fails on the code: a typed domain error with a non-empty
message but an empty structured detail is emitted with an empty `errors`
sequence — no synthetic entry is derived on the domain-error path. -/
theorem domainErr_empty_detail_gives_empty_errors :
    (httpEncodeError (GoError.domainErr "boom" [])).error.errors = [] := rfl

/-- C1 (amended): for every error that is not a typed domain error, the
`errors` sequence of the emitted `ErrorRes` is non-empty; for a typed domain
error it is the error's own structured detail when the message is non-empty,
and empty otherwise. -/
theorem errors_nonempty_unless_domain (err : GoError) :
    (isDomainError err = false → (httpEncodeError err).error.errors ≠ [])
    ∧ (∀ m es, err = .domainErr m es →
        (httpEncodeError err).error.errors = if m = "" then [] else es) := by
  constructor
  · intro h
    cases err <;> simp_all [httpEncodeError, isDomainError, FromError]
  · intro m es h
    subst h
    by_cases hm : m = "" <;> simp [httpEncodeError, hm]

/-- Witness for C1 (amended) at concrete inputs. -/
theorem errors_nonempty_unless_domain_witness :
    isDomainError GoError.eof = false
    ∧ (httpEncodeError GoError.eof).error.errors ≠ [] :=
  ⟨rfl, (errors_nonempty_unless_domain GoError.eof).1 rfl⟩

/-- C2: status codes for errors that are neither RPC-status errors nor typed
domain errors: unexpected EOF and EOF on the body give 400, a missing
authentication context gives 401, JSON syntax and type-mismatch decode errors
give 400, and any other error gives 500. -/
theorem transport_error_status_codes (m : String) :
    (httpEncodeError .unexpectedEOF).error.code = 400
    ∧ (httpEncodeError .eof).error.code = 400
    ∧ (httpEncodeError .tokenContextMissing).error.code = 401
    ∧ (httpEncodeError (.jsonSynErr m)).error.code = 400
    ∧ (httpEncodeError (.jsonTypeErr m)).error.code = 400
    ∧ (httpEncodeError (.generic m)).error.code = 500 :=
  ⟨rfl, rfl, rfl, rfl, rfl, rfl⟩

/-- C3: an RPC status error is classified by the first rule: the HTTP status
is taken from the fixed total table `HTTPStatusFromCode`, the sub-errors are
obtained by parsing the RPC status message through the generic parser
`FromError`, and the message is the first parsed sub-error's message. -/
theorem rpcStatus_translation (c : RpcCode) (m : String) :
    (httpEncodeError (.rpcStatus c m)).error.code = HTTPStatusFromCode c
    ∧ (httpEncodeError (.rpcStatus c m)).error.errors = FromError m
    ∧ (httpEncodeError (.rpcStatus c m)).error.message = m :=
  ⟨rfl, rfl, rfl⟩

/-- The claim of C6 fails on the code: a typed domain error with an empty
message does not get its message set by steps 1-2, yet the emitted envelope
has an empty `errors` sequence, so the message (the empty string) is not the
first sub-error's message — there is no first sub-error. -/
theorem empty_domainErr_message_not_head :
    ((httpEncodeError (GoError.domainErr "" [])).error.errors.map
        SubError.message).head?
      ≠ some (httpEncodeError (GoError.domainErr "" [])).error.message := by
  decide

/-- C6 (amended): for every error that is neither an RPC-status error nor a
typed domain error, the message of the emitted envelope equals the message of
the first element of the parsed sub-error sequence. -/
theorem fallback_message_is_head (err : GoError)
    (h1 : isRpcStatus err = false) (h2 : isDomainError err = false) :
    ((httpEncodeError err).error.errors.map SubError.message).head?
      = some (httpEncodeError err).error.message := by
  cases err <;> simp_all [httpEncodeError, isRpcStatus, isDomainError, FromError]

/-- Witness for C6 (amended) at a concrete input. -/
theorem fallback_message_is_head_witness :
    isRpcStatus (GoError.generic "x") = false
    ∧ isDomainError (GoError.generic "x") = false
    ∧ ((httpEncodeError (GoError.generic "x")).error.errors.map
        SubError.message).head?
      = some (httpEncodeError (GoError.generic "x")).error.message :=
  ⟨rfl, rfl, fallback_message_is_head (GoError.generic "x") rfl rfl⟩

/-- JSON documents, as produced and consumed by `encoding/json` in the
transport layer. -/
inductive Json
  | null
  | str (s : String)
  | num (n : Int)
  | boolean (b : Bool)
  | arr (xs : List Json)
  | obj (fields : List (String × Json))

/-- Name of a JSON value's type as it appears in Go's unmarshal error
messages. -/
def jsonTypeName : Json → String
  | .null => "null"
  | .str _ => "string"
  | .num _ => "number"
  | .boolean _ => "bool"
  | .arr _ => "array"
  | .obj _ => "object"

/-- First value bound to a key in a JSON object's field list. -/
def jsonLookup (key : String) : List (String × Json) → Option Json
  | [] => none
  | (k, v) :: rest => if k = key then some v else jsonLookup key rest

/-- JSON marshalling of an `errors.Errors` sub-error: `{field?, message}`,
with the field omitted when empty. -/
def encodeSubError (e : SubError) : Json :=
  if e.field = "" then .obj [("message", .str e.message)]
  else .obj [("field", .str e.field), ("message", .str e.message)]

/-- JSON marshalling of the `ErrorRes` envelope written by `httpEncodeError`:
`{"error": {"code": .., "message": .., "errors": [..]}}`. -/
def encodeErrorRes (r : ErrorRes) : Json :=
  .obj [("error", .obj
    [("code", .num r.error.code),
     ("message", .str r.error.message),
     ("errors", .arr (r.error.errors.map encodeSubError))])]

/-- `encoding/json` unmarshalling of a document into
`responses.ErrorWrapper{Error string}`: a missing or null `error` key leaves
the zero value, a string key is taken, and any other JSON type for the key
(or a non-object document) is a type-mismatch error. -/
def decodeErrorWrapper (j : Json) : Except GoError ErrorWrapper :=
  match j with
  | .obj fields =>
      match jsonLookup "error" fields with
      | none => .ok { error := "" }
      | some .null => .ok { error := "" }
      | some (.str s) => .ok { error := s }
      | some v => .error (.jsonTypeErr
          ("json: cannot unmarshal " ++ jsonTypeName v
            ++ " into Go struct field ErrorWrapper.error of type string"))
  | v => .error (.jsonTypeErr
      ("json: cannot unmarshal " ++ jsonTypeName v
        ++ " into Go value of type responses.ErrorWrapper"))

/-- Modelled from the spec: `errors.New` of the `internal/pkg/errors` package
builds a typed domain error carrying the given message and no structured
sub-errors. -/
def errorsNew (s : String) : GoError :=
  .domainErr s []

/-- An HTTP response as seen by the client decoders: status code, the
`Content-Type` header, and the body (a JSON document; all bodies the claims
concern are well-formed JSON). -/
structure HttpResponse where
  statusCode : Nat
  contentType : String
  body : Json

/-- Embedding of `strings.Contains`. -/
def goStringsContains (s sub : String) : Bool :=
  s.data.tails.any (fun t => sub.data.isPrefixOf t)

/-- Embedding of `JSONErrorDecoder` (http.go lines 36-46): a non-JSON
`Content-Type` is surfaced as a generic formatted error without parsing the
body; otherwise the body is decoded as an `ErrorWrapper` and, on success,
wrapped through `errors.New`. -/
def JSONErrorDecoder (r : HttpResponse) : GoError :=
  if goStringsContains r.contentType "application/json" = false then
    .generic ("expected JSON formatted error, got Content-Type " ++ r.contentType)
  else
    match decodeErrorWrapper r.body with
    | .error e => e
    | .ok w => errorsNew w.error

/-- Modelled from the spec: `endpoints.SumResponse`, the Sum success record;
its JSON shape is `{"res": <number>}` (spec scenario: sum of 2 and 3 answers
`{"res":5}`). -/
structure SumResponse where
  res : Int
deriving DecidableEq

/-- Modelled from the spec: `endpoints.ConcatResponse`, the Concat success
record; its JSON shape is `{"res": <string>}`. -/
structure ConcatResponse where
  res : String
deriving DecidableEq

/-- `encoding/json` unmarshalling of a document into `SumResponse`: a missing
or null `res` key leaves the zero value, a number is taken, any other type is
a type-mismatch error. -/
def decodeSumResponseJson (j : Json) : Except GoError SumResponse :=
  match j with
  | .obj fields =>
      match jsonLookup "res" fields with
      | none => .ok { res := 0 }
      | some .null => .ok { res := 0 }
      | some (.num n) => .ok { res := n }
      | some v => .error (.jsonTypeErr
          ("json: cannot unmarshal " ++ jsonTypeName v
            ++ " into Go struct field SumResponse.res of type int64"))
  | .null => .ok { res := 0 }
  | v => .error (.jsonTypeErr
      ("json: cannot unmarshal " ++ jsonTypeName v
        ++ " into Go value of type endpoints.SumResponse"))

/-- `encoding/json` unmarshalling of a document into `ConcatResponse`. -/
def decodeConcatResponseJson (j : Json) : Except GoError ConcatResponse :=
  match j with
  | .obj fields =>
      match jsonLookup "res" fields with
      | none => .ok { res := "" }
      | some .null => .ok { res := "" }
      | some (.str s) => .ok { res := s }
      | some v => .error (.jsonTypeErr
          ("json: cannot unmarshal " ++ jsonTypeName v
            ++ " into Go struct field ConcatResponse.res of type string"))
  | .null => .ok { res := "" }
  | v => .error (.jsonTypeErr
      ("json: cannot unmarshal " ++ jsonTypeName v
        ++ " into Go value of type endpoints.ConcatResponse"))

/-- Embedding of `decodeHTTPSumResponse` (http.go lines 179-186): a status
other than 200 delegates to `JSONErrorDecoder` and yields no success value;
a 200 response has its body decoded as a `SumResponse`, surfacing the decode
error when that fails. -/
def decodeHTTPSumResponse (r : HttpResponse) : Except GoError SumResponse :=
  if r.statusCode ≠ 200 then .error (JSONErrorDecoder r)
  else decodeSumResponseJson r.body

/-- Embedding of `decodeHTTPConcatResponse` (http.go lines 203-210). -/
def decodeHTTPConcatResponse (r : HttpResponse) : Except GoError ConcatResponse :=
  if r.statusCode ≠ 200 then .error (JSONErrorDecoder r)
  else decodeConcatResponseJson r.body

/-- A response value as `encodeJSONResponse` sees it: its JSON marshalling
plus the optional `Headerer` / `StatusCoder` / `Responser` capabilities the
encoder probes for dynamically. -/
structure ResponseValue where
  json : Json
  headers : List (String × String)
  statusCodeOpt : Option Nat
  responserOpt : Option Json

/-- The wire response written by the server encoder. -/
structure EncodedResponse where
  contentType : String
  headers : List (String × String)
  code : Nat
  body : Option Json

/-- Embedding of `encodeJSONResponse` (http.go lines 255-278): sets the JSON
content type, honors the optional header and status-code capabilities
(status defaults to 200), writes no body on 204, and otherwise marshals the
`Responser` projection when present, else the value itself. -/
def encodeJSONResponse (response : ResponseValue) : EncodedResponse :=
  let code := response.statusCodeOpt.getD 200
  { contentType := "application/json; charset=utf-8"
    headers := response.headers
    code := code
    body :=
      if code = 204 then none
      else some (response.responserOpt.getD response.json) }

/-- Modelled from the spec: the `ResponseValue` of an `endpoints.SumResponse`
success — JSON body `{"res": n}`, no header or status-code overrides. -/
def sumResponseValue (r : SumResponse) : ResponseValue :=
  { json := .obj [("res", .num r.res)]
    headers := []
    statusCodeOpt := none
    responserOpt := none }

/-- Modelled from the spec: the `ResponseValue` of an
`endpoints.ConcatResponse` success — JSON body `{"res": s}`. -/
def concatResponseValue (r : ConcatResponse) : ResponseValue :=
  { json := .obj [("res", .str r.res)]
    headers := []
    statusCodeOpt := none
    responserOpt := none }

/-- An `EncodedResponse` as the client then reads it back. -/
def toHttpResponse (e : EncodedResponse) : HttpResponse :=
  { statusCode := e.code
    contentType := e.contentType
    body := e.body.getD .null }

/-- The claim of C4 fails on the code: feeding `JSONErrorDecoder` a
non-success response whose body is exactly the serialized `ErrorRes` envelope
written by `httpEncodeError` does not reconstruct an error from the
envelope's content — decoding into `ErrorWrapper{error: string}` hits the
envelope's `error` object and returns the JSON type-mismatch error instead.
A response with a non-JSON content type is, as claimed, surfaced as the
generic protocol-violation error without parsing the body. -/
theorem errorRes_envelope_not_decodable :
    JSONErrorDecoder
        { statusCode := 500
          contentType := "application/json"
          body := encodeErrorRes (httpEncodeError (GoError.generic "boom")) }
      = .jsonTypeErr
          "json: cannot unmarshal object into Go struct field ErrorWrapper.error of type string"
    ∧ JSONErrorDecoder
        { statusCode := 500
          contentType := "application/json"
          body := encodeErrorRes (httpEncodeError (GoError.generic "boom")) }
      ≠ errorsNew "boom"
    ∧ JSONErrorDecoder { statusCode := 500, contentType := "text/html", body := .null }
      = .generic "expected JSON formatted error, got Content-Type text/html" := by
  refine ⟨rfl, by decide, rfl⟩

/-- The claim of C5 fails on the code: a response with the 2xx status 201 and
a perfectly decodable Sum success body is not decoded as a success — the
decoder branches on `status = 200` exactly, so 201 is handed to
`JSONErrorDecoder`. -/
theorem status201_not_decoded_as_success :
    decodeHTTPSumResponse
        { statusCode := 201
          contentType := "application/json"
          body := .obj [("res", .num 5)] }
      = .error (GoError.domainErr "" []) := rfl

/-- C5 (amended): the client decoders decode the typed success payload (and
surface its decode result, error included) exactly when the status is 200;
every other status — non-2xx and non-200 2xx alike — yields no success value
and delegates to the error decoder. -/
theorem decode_response_dispatch (r : HttpResponse) :
    (r.statusCode ≠ 200 →
      decodeHTTPSumResponse r = .error (JSONErrorDecoder r)
      ∧ decodeHTTPConcatResponse r = .error (JSONErrorDecoder r))
    ∧ (r.statusCode = 200 →
      decodeHTTPSumResponse r = decodeSumResponseJson r.body
      ∧ decodeHTTPConcatResponse r = decodeConcatResponseJson r.body) := by
  constructor
  · intro h
    simp [decodeHTTPSumResponse, decodeHTTPConcatResponse, h]
  · intro h
    simp [decodeHTTPSumResponse, decodeHTTPConcatResponse, h]

/-- Witness for C5 (amended) at concrete inputs. -/
theorem decode_response_dispatch_witness :
    decodeHTTPSumResponse { statusCode := 404, contentType := "text/html", body := .null }
      = .error (JSONErrorDecoder { statusCode := 404, contentType := "text/html", body := .null })
    ∧ decodeHTTPSumResponse
        { statusCode := 200, contentType := "application/json", body := .obj [("res", .num 7)] }
      = .ok { res := 7 } :=
  ⟨((decode_response_dispatch
      { statusCode := 404, contentType := "text/html", body := .null }).1 (by decide)).1,
   by
    have h := ((decode_response_dispatch
      { statusCode := 200, contentType := "application/json",
        body := .obj [("res", .num 7)] }).2 rfl).1
    simpa using h⟩

/-- C7: serializing a Sum or Concat success record with the server encoder
and decoding the resulting 200 response with the matching client decoder
gives back the original record. -/
theorem encode_decode_roundtrip (s : SumResponse) (c : ConcatResponse) :
    decodeHTTPSumResponse (toHttpResponse (encodeJSONResponse (sumResponseValue s)))
      = .ok s
    ∧ decodeHTTPConcatResponse (toHttpResponse (encodeJSONResponse (concatResponseValue c)))
      = .ok c := by
  constructor
  · simp [decodeHTTPSumResponse, encodeJSONResponse, sumResponseValue, toHttpResponse,
      decodeSumResponseJson, jsonLookup]
  · simp [decodeHTTPConcatResponse, encodeJSONResponse, concatResponseValue, toHttpResponse,
      decodeConcatResponseJson, jsonLookup]

/-- The fields of `net/url.URL` the transport layer touches. -/
structure URL where
  scheme : String
  host : String
  path : String
  rawQuery : String
  fragment : String
deriving DecidableEq

/-- Embedding of `copyURL` (http.go lines 158-162): copy the base URL value
and overwrite only its `Path` with the given path. -/
def copyURL (base : URL) (path : String) : URL :=
  { base with path := path }

/-- Embedding of `strings.HasPrefix`. -/
def goHasPrefix (s pre : String) : Bool :=
  pre.data.isPrefixOf s.data

/-- The instance-sanitizing step at the top of `NewHTTPClient` (http.go lines
94-96): prefix `"http://"` only when the instance does not already start with
the literal `"http"`. -/
def sanitizeInstance (inst : String) : String :=
  if goHasPrefix inst "http" then inst else "http://" ++ inst

/-- Split a character list at the first occurrence of a (non-empty) pattern,
returning the parts before and after it. -/
def splitAtInfix (pat : List Char) : List Char → Option (List Char × List Char)
  | [] => none
  | c :: cs =>
      if pat.isPrefixOf (c :: cs) then some ([], (c :: cs).drop pat.length)
      else
        match splitAtInfix pat cs with
        | some (pre, post) => some (c :: pre, post)
        | none => none

/-- Model of Go's `net/url.Parse`, restricted to the behaviour the transport
code relies on: a URL containing an ASCII control character is rejected with
an error; a string containing `"://"` splits into the scheme before it, the
host up to the next `/`, and the remainder as the path; a string without
`"://"` parses with empty scheme and host and the whole string as path. -/
def urlParse (s : String) : Except String URL :=
  if s.data.any (fun c => c.toNat < 32 || c.toNat == 127) then
    .error "net/url: invalid control character in URL"
  else
    match splitAtInfix "://".data s.data with
    | none =>
        .ok { scheme := "", host := "", path := s, rawQuery := "", fragment := "" }
    | some (schemeChars, rest) =>
        .ok { scheme := String.mk schemeChars
              host := String.mk (rest.takeWhile (fun c => c ≠ '/'))
              path := String.mk (rest.dropWhile (fun c => c ≠ '/'))
              rawQuery := ""
              fragment := "" }

/-- The method and target URL of the two client endpoints built by
`NewHTTPClient`. -/
structure ClientEndpoints where
  sumMethod : String
  sumURL : URL
  concatMethod : String
  concatURL : URL
deriving DecidableEq

/-- Embedding of `NewHTTPClient` (http.go lines 93-155), restricted to the
wire-relevant data: sanitize the instance, parse it (returning the parse
error as the construction error, so no endpoints are produced), then build
the Sum endpoint as `POST copyURL(u, "/sum")` and the Concat endpoint as
`POST copyURL(u, "/concat")`. -/
def NewHTTPClient (inst : String) : Except String ClientEndpoints :=
  match urlParse (sanitizeInstance inst) with
  | .error e => .error e
  | .ok u =>
      .ok { sumMethod := "POST"
            sumURL := copyURL u "/sum"
            concatMethod := "POST"
            concatURL := copyURL u "/concat" }

/-- A route binding of the server handler. -/
structure Route where
  method : String
  path : String
deriving DecidableEq

/-- The route table bound by `NewHTTPHandler` (http.go lines 56-70). -/
def serverRoutes : List Route :=
  [{ method := "POST", path := "/api/add/sum" },
   { method := "POST", path := "/api/add/concat" },
   { method := "GET", path := "/metrics" }]

/-- C8 fails on the code (the code contradicts the client's stated purpose):
the client built for instance `localhost:8080` sends `POST /sum` and
`POST /concat`, while the server binds `POST /api/add/sum` and
`POST /api/add/concat`; neither client path is a bound server route. -/
theorem client_server_path_mismatch :
    NewHTTPClient "localhost:8080"
      = .ok { sumMethod := "POST"
              sumURL := { scheme := "http", host := "localhost:8080", path := "/sum",
                          rawQuery := "", fragment := "" }
              concatMethod := "POST"
              concatURL := { scheme := "http", host := "localhost:8080", path := "/concat",
                             rawQuery := "", fragment := "" } }
    ∧ { method := "POST", path := "/api/add/sum" } ∈ serverRoutes
    ∧ { method := "POST", path := "/api/add/concat" } ∈ serverRoutes
    ∧ ({ method := "POST", path := "/sum" } : Route) ∉ serverRoutes
    ∧ ({ method := "POST", path := "/concat" } : Route) ∉ serverRoutes := by
  refine ⟨rfl, by decide, by decide, by decide, by decide⟩

/-- The claim of C9 fails on the code: `httpd.example.com:8080` is a bare
host[:port] with no URL scheme (it contains no `"://"`), yet because it
starts with the literal `"http"` the sanitizer leaves it unchanged — no
scheme is prefixed before use. -/
theorem bare_host_not_normalized :
    goStringsContains "httpd.example.com:8080" "://" = false
    ∧ sanitizeInstance "httpd.example.com:8080" = "httpd.example.com:8080"
    ∧ sanitizeInstance "httpd.example.com:8080" ≠ "http://" ++ "httpd.example.com:8080" := by
  refine ⟨by decide, rfl, by decide⟩

/-- C9 (amended): an instance is prefixed with `"http://"` exactly when it
does not start with the literal `"http"` (so bare hosts beginning with
`"http"` are used as-is), and a malformed URL makes `NewHTTPClient` return
the parse error as its construction error, producing no endpoints. -/
theorem sanitize_and_fail_fast (s : String) :
    (goHasPrefix s "http" = false → sanitizeInstance s = "http://" ++ s)
    ∧ (goHasPrefix s "http" = true → sanitizeInstance s = s)
    ∧ (∀ e, urlParse (sanitizeInstance s) = .error e → NewHTTPClient s = .error e) := by
  refine ⟨fun h => by simp [sanitizeInstance, h], fun h => by simp [sanitizeInstance, h], ?_⟩
  intro e h
  simp [NewHTTPClient, h]

/-- Witness for C9 (amended) at concrete inputs: a bare host is prefixed, and
an instance containing a control character fails construction. -/
theorem sanitize_and_fail_fast_witness :
    (goHasPrefix "localhost:8080" "http" = false
      ∧ sanitizeInstance "localhost:8080" = "http://localhost:8080")
    ∧ NewHTTPClient "http://bad\x00host"
        = .error "net/url: invalid control character in URL" :=
  ⟨⟨by decide, (sanitize_and_fail_fast "localhost:8080").1 (by decide)⟩,
   (sanitize_and_fail_fast "http://bad\x00host").2.2 _ rfl⟩

/-- C10: `copyURL` returns a URL whose path is the given path and whose every
other (modelled) field equals the corresponding field of the base URL; the
base value itself is a pure input and is not modified. -/
theorem copyURL_only_path (base : URL) (p : String) :
    (copyURL base p).path = p
    ∧ (copyURL base p).scheme = base.scheme
    ∧ (copyURL base p).host = base.host
    ∧ (copyURL base p).rawQuery = base.rawQuery
    ∧ (copyURL base p).fragment = base.fragment :=
  ⟨rfl, rfl, rfl, rfl, rfl⟩
